import Mathlib

/-!
Verification development for the TelemetryLink sensor service
(src/sensor/sensor.cpp).

The program runs three threads sharing one unsynchronized global record
`sensor_reading`:
  * `sensor_thread` (CPU sampler) and `disk_usage_thread` (disk sampler)
    each publish a reading by writing the four fields of the shared record
    one at a time, with deliberate delays between the field writes;
  * `comm_thread` (the reporter) copies the shared record, validates it,
    builds a JSON message and exchanges it with a remote collector over a
    ZeroMQ REQ/REP socket, keeping running statistics.

This file gives a shallow embedding of that code:
  * `SensorData`, `initSensorData` embed the shared record and its
    default-constructed initial value;
  * `CpuTimes`, `calculate_cpu_usage` embed the CPU usage computation;
  * `isCorrupt`, `buildMessage`, `commTick`, `commRun` embed one iteration
    (and a run) of the reporter loop, with the channel outcome per tick
    made an explicit input;
  * `WriteStep`, `publishSteps`, `IsInterleaving`, `runSteps` embed the
    field-at-a-time publication protocol of the samplers as a step
    relation, so that interleavings of publications and snapshots can be
    reasoned about.

C++ `double` values are modelled as `ℚ`: the program only ever compares
values against the exact constants 0 and 100 and copies them around, and
every constant appearing in the claims (42.5, 100.0, 100.0001, -0.0001,
55, 142) has the same order relation to 0 and 100 as its nearest double.
-/

/-- Embeds `struct SensorData` (sensor.cpp lines 23-30): the shared
telemetry record with four fields. -/
structure SensorData where
  sensor_id : String
  value : ℚ
  timestamp : String
  is_valid : Bool
deriving DecidableEq, Repr

/-- Embeds the default constructor `SensorData()` (sensor.cpp line 29),
the state of the global `sensor_reading` before any publication. -/
def initSensorData : SensorData :=
  { sensor_id := "", value := -1, timestamp := "", is_valid := false }

/-- Embeds `struct CpuTimes` (sensor.cpp lines 36-38): cumulative tick
counters read from /proc/stat. The C++ fields are `long`; we use `ℤ`. -/
structure CpuTimes where
  user : ℤ
  nice : ℤ
  system : ℤ
  idle : ℤ
  iowait : ℤ
  irq : ℤ
  softirq : ℤ
  steal : ℤ
deriving DecidableEq, Repr

/-- Embeds `prev_idle`/`curr_idle` of `calculate_cpu_usage`
(sensor.cpp lines 73-74): idle plus iowait. -/
def idleOf (t : CpuTimes) : ℤ := t.idle + t.iowait

/-- Embeds `prev_non_idle`/`curr_non_idle` of `calculate_cpu_usage`
(sensor.cpp lines 76-79). -/
def nonIdleOf (t : CpuTimes) : ℤ :=
  t.user + t.nice + t.system + t.irq + t.softirq + t.steal

/-- Embeds `total_diff` of `calculate_cpu_usage` (sensor.cpp lines 81-84):
the change in the total tick counter between the stored previous sample
and the current sample. -/
def total_diff (prev current : CpuTimes) : ℤ :=
  (idleOf current + nonIdleOf current) - (idleOf prev + nonIdleOf prev)

/-- Embeds `idle_diff` of `calculate_cpu_usage` (sensor.cpp line 85). -/
def idle_diff (prev current : CpuTimes) : ℤ :=
  idleOf current - idleOf prev

/-- Embeds `calculate_cpu_usage` (sensor.cpp lines 69-96) as a function of
the stored previous sample and the freshly read current sample: the
percentage `(total_diff - idle_diff) / total_diff * 100` is computed only
when `total_diff > 0`, and `cpu_usage` keeps its initialization `0.0`
otherwise. (The C++ function also assigns `prev_cpu_times = current`; in
this embedding the caller threads that state explicitly.) -/
def calculate_cpu_usage (prev current : CpuTimes) : ℚ :=
  if 0 < total_diff prev current then
    ((total_diff prev current - idle_diff prev current : ℤ) /
      (total_diff prev current : ℚ)) * 100
  else 0

/-- Embeds the publication side of `sensor_thread` (sensor.cpp
lines 98-123) as a function of the sequence of CpuTimes samples the
thread reads: the first read (line 102) only initializes
`prev_cpu_times` and publishes nothing; every later read yields one
published usage computed from the immediately preceding sample by
`calculate_cpu_usage`, which then becomes the stored previous sample. -/
def cpuUsagesFrom : CpuTimes → List CpuTimes → List ℚ
  | _, [] => []
  | prev, c :: rest => calculate_cpu_usage prev c :: cpuUsagesFrom c rest

/-- Embeds the whole sample-to-publication behaviour of `sensor_thread`
(sensor.cpp lines 98-123): given the list of all samples the thread reads
from /proc/stat, in order, the list of usage values it publishes. -/
def sensorThreadUsages : List CpuTimes → List ℚ
  | [] => []
  | s0 :: rest => cpuUsagesFrom s0 rest

/-- Embeds the corruption test of `comm_thread` (sensor.cpp
lines 182-185): the condition under which the reporter flags the copied
reading as inconsistent. -/
def isCorrupt (r : SensorData) : Bool :=
  decide ((r.sensor_id = "cpu_usage_01" ∧ (r.value > 100 ∨ r.value < 0)) ∨
          (r.sensor_id = "disk_usage_root" ∧ r.value > 100) ∨
          r.sensor_id = "" ∨
          r.timestamp = "")

/-- Models the JSON object built by `comm_thread` (sensor.cpp
lines 195-210): a four-key object whose metric key is either
"cpu_usage_percent" or "disk_usage_percent", recorded in `value_key`. -/
structure JsonMsg where
  sensor_id : String
  timestamp : String
  value_key : String
  value : ℚ
  data_consistent : Bool
deriving DecidableEq, Repr

/-- Embeds the message construction of `comm_thread` (sensor.cpp
lines 196-210): readings whose id is exactly "cpu_usage_01" use the
"cpu_usage_percent" key, every other reading takes the else branch and
uses "disk_usage_percent". -/
def buildMessage (r : SensorData) (dc : Bool) : JsonMsg :=
  if r.sensor_id = "cpu_usage_01" then
    { sensor_id := r.sensor_id, timestamp := r.timestamp,
      value_key := "cpu_usage_percent", value := r.value,
      data_consistent := dc }
  else
    { sensor_id := r.sensor_id, timestamp := r.timestamp,
      value_key := "disk_usage_percent", value := r.value,
      data_consistent := dc }

/-- Models the outcome of one ZeroMQ send/recv exchange as seen by
`comm_thread` (sensor.cpp lines 216-223): success, a recv that returns
no reply, or a send/recv that throws. -/
inductive ChannelOutcome where
  | ok
  | noReply
  | exc
deriving DecidableEq, Repr

/-- Models the log lines `comm_thread` can emit during one iteration
(sensor.cpp lines 189-191, 220, 222, 227-229) and the final statistics
line after the loop (lines 239-241). -/
inductive LogEvent where
  | corruption (id : String) (v : ℚ) (ts : String)
  | warnNoReply
  | errSendRecv
  | stats (total corr : ℕ) (rate : ℚ)
  | finalStats (total corr : ℕ) (rate : ℚ)
deriving DecidableEq, Repr

/-- Embeds the reporter-local counters of `comm_thread` (sensor.cpp
lines 170-171). -/
structure ReporterState where
  total_reads : ℕ
  corruption_count : ℕ
deriving DecidableEq, Repr

/-- Result of one iteration of the `comm_thread` loop: the updated
counters, the message sent (none when the tick was skipped), and the log
lines emitted. -/
structure TickOut where
  st : ReporterState
  sent : Option JsonMsg
  logs : List LogEvent
deriving DecidableEq, Repr

/-- Embeds one iteration of the `comm_thread` loop (sensor.cpp
lines 173-235): copy the shared record, increment `total_reads`
unconditionally, and only when the copied `is_valid` is set run the
corruption check, build and send the JSON message (the send/recv failure
being caught and logged), and log the rolling statistics when
`total_reads` is a multiple of 50. -/
def commTick (st : ReporterState) (current_reading : SensorData)
    (ch : ChannelOutcome) : TickOut :=
  let total := st.total_reads + 1
  if current_reading.is_valid then
    let corrupt := isCorrupt current_reading
    let corr := st.corruption_count + (if corrupt then 1 else 0)
    let corruptionLog : List LogEvent :=
      if corrupt then
        [LogEvent.corruption current_reading.sensor_id
          current_reading.value current_reading.timestamp]
      else []
    let msg := buildMessage current_reading (!corrupt)
    let transportLog : List LogEvent :=
      match ch with
      | ChannelOutcome.ok => []
      | ChannelOutcome.noReply => [LogEvent.warnNoReply]
      | ChannelOutcome.exc => [LogEvent.errSendRecv]
    let statsLog : List LogEvent :=
      if total % 50 = 0 then
        [LogEvent.stats total corr ((corr : ℚ) / (total : ℚ) * 100)]
      else []
    { st := { total_reads := total, corruption_count := corr },
      sent := some msg,
      logs := corruptionLog ++ transportLog ++ statsLog }
  else
    { st := { total_reads := total, corruption_count := st.corruption_count },
      sent := none,
      logs := [] }

/-- Embeds a run of the `comm_thread` loop over a list of ticks, each
tick supplying the snapshot the reporter copies and the channel outcome
of its exchange; returns the final counters and all logs in order. -/
def commRun : ReporterState → List (SensorData × ChannelOutcome) →
    ReporterState × List LogEvent
  | st, [] => (st, [])
  | st, t :: ts =>
      let o := commTick st t.1 t.2
      let rest := commRun o.st ts
      (rest.1, o.logs ++ rest.2)

/-- Embeds the final statistics line of `comm_thread` after its loop
exits (sensor.cpp lines 238-241): always emitted, with the rate guarded
by `total_reads > 0`. -/
def finalStatsLog (st : ReporterState) : LogEvent :=
  LogEvent.finalStats st.total_reads st.corruption_count
    (if 0 < st.total_reads then
      (st.corruption_count : ℚ) / (st.total_reads : ℚ) * 100
     else 0)

/-- Recognizes the transport-failure log lines of `comm_thread`
(sensor.cpp lines 220 and 222). -/
def isTransportFailureLog : LogEvent → Bool
  | LogEvent.warnNoReply => true
  | LogEvent.errSendRecv => true
  | _ => false

/-- Sample reading used by the end-to-end scenario: the CPU reading
published as 42.5 percent at 2024-01-01T00:00:00Z. -/
def exampleCpuReading : SensorData :=
  { sensor_id := "cpu_usage_01", value := 42.5,
    timestamp := "2024-01-01T00:00:00Z", is_valid := true }

/-- Models one atomic field write to the shared `sensor_reading` record.
Both sampler threads publish by four separate assignments (sensor.cpp
lines 108-117 and 146-155), each of which is one such step; the
deliberate sleeps between them mean any other thread can run between two
consecutive steps. -/
inductive WriteStep where
  | wId (id : String)
  | wValue (v : ℚ)
  | wTimestamp (ts : String)
  | wValid (b : Bool)
deriving DecidableEq, Repr

/-- Applies one field write to the shared record. -/
def applyStep (s : SensorData) : WriteStep → SensorData
  | WriteStep.wId i => { s with sensor_id := i }
  | WriteStep.wValue v => { s with value := v }
  | WriteStep.wTimestamp ts => { s with timestamp := ts }
  | WriteStep.wValid b => { s with is_valid := b }

/-- Runs a sequence of field writes on the shared record. -/
def runSteps (s : SensorData) (l : List WriteStep) : SensorData :=
  l.foldl applyStep s

/-- Embeds one sampler publication of reading `r` as its sequence of four
field writes, in source order (sensor.cpp lines 108-117 for the CPU
sampler, 146-155 for the disk sampler): sensor_id, then value, then
timestamp, then `is_valid = true`. -/
def publishSteps (r : SensorData) : List WriteStep :=
  [WriteStep.wId r.sensor_id, WriteStep.wValue r.value,
   WriteStep.wTimestamp r.timestamp, WriteStep.wValid true]

/-- Holds when the third list is an interleaving of the first two,
preserving the order within each: the schedule of write steps that the
two sampler threads can jointly produce. -/
inductive IsInterleaving : List WriteStep → List WriteStep → List WriteStep → Prop
  | nil : IsInterleaving [] [] []
  | left {x xs ys zs} : IsInterleaving xs ys zs →
      IsInterleaving (x :: xs) ys (x :: zs)
  | right {y xs ys zs} : IsInterleaving xs ys zs →
      IsInterleaving xs (y :: ys) (y :: zs)

/-- Disk reading published first in the torn-read scenario. -/
def rDiskC1 : SensorData :=
  { sensor_id := "disk_usage_root", value := 55,
    timestamp := "2024-01-01T00:00:01Z", is_valid := true }

/-- CPU reading whose publication is in progress in the torn-read
scenario. -/
def rCpuC1 : SensorData :=
  { sensor_id := "cpu_usage_01", value := 20,
    timestamp := "2024-01-01T00:00:02Z", is_valid := true }

/-- Schedule in which the disk publication completes and the CPU
publication then begins: the four disk field writes followed by the four
CPU field writes. -/
def trC1 : List WriteStep := publishSteps rDiskC1 ++ publishSteps rCpuC1

/-- Sample reading with the disk sensor id and an integral value. -/
def exampleDiskReading : SensorData :=
  { sensor_id := "disk_usage_root", value := 55,
    timestamp := "2024-01-01T00:00:01Z", is_valid := true }

/-- Record that looks like a stale publication: fully populated fields
but `is_valid = false`, used to compare the reporter against the
never-published slot state. -/
def staleInvalidReading : SensorData :=
  { sensor_id := "cpu_usage_01", value := 40,
    timestamp := "2023-12-31T23:59:59Z", is_valid := false }

/-- Embeds the whole life of `comm_thread` (sensor.cpp lines 168-243):
the loop over the given ticks followed by the final statistics line. -/
def comm_thread_run (ticks : List (SensorData × ChannelOutcome)) :
    ReporterState × List LogEvent :=
  let o := commRun ⟨0, 0⟩ ticks
  (o.1, o.2 ++ [finalStatsLog o.1])

/-- CpuTimes sample with all counters zero. -/
def cpuZero : CpuTimes :=
  { user := 0, nice := 0, system := 0, idle := 0,
    iowait := 0, irq := 0, softirq := 0, steal := 0 }

/-- CpuTimes sample with 10 busy and 10 idle ticks. -/
def cpuSample1 : CpuTimes :=
  { user := 8, nice := 0, system := 2, idle := 10,
    iowait := 0, irq := 0, softirq := 0, steal := 0 }

/-- Two reporter ticks on which every channel exchange fails: one throws
and one returns no reply. -/
def ticksC6 : List (SensorData × ChannelOutcome) :=
  [(exampleDiskReading, ChannelOutcome.exc),
   (exampleDiskReading, ChannelOutcome.noReply)]

/-! ## Helper lemmas -/

/-- Running one thread to completion and then the other is one legal
interleaving of the two step sequences. -/
theorem IsInterleaving.append :
    ∀ xs ys : List WriteStep, IsInterleaving xs ys (xs ++ ys)
  | [], [] => IsInterleaving.nil
  | [], y :: ys => IsInterleaving.right (IsInterleaving.append [] ys)
  | x :: xs, ys => IsInterleaving.left (IsInterleaving.append xs ys)

/-- The CPU sampler publishes exactly one usage value per sample after
the stored previous one. -/
theorem cpuUsagesFrom_length :
    ∀ (prev : CpuTimes) (l : List CpuTimes),
      (cpuUsagesFrom prev l).length = l.length
  | _, [] => rfl
  | _, _ :: rest => by
      simp [cpuUsagesFrom, cpuUsagesFrom_length _ rest]

/-- The reporter increments total_reads once per tick, skipped or not. -/
theorem commTick_total_reads (st : ReporterState) (r : SensorData)
    (ch : ChannelOutcome) :
    (commTick st r ch).st.total_reads = st.total_reads + 1 := by
  by_cases h : r.is_valid <;> simp [commTick, h]

/-- Over a run, total_reads grows by exactly the number of ticks. -/
theorem commRun_total_reads :
    ∀ (ticks : List (SensorData × ChannelOutcome)) (st : ReporterState),
      (commRun st ticks).1.total_reads = st.total_reads + ticks.length
  | [], _ => rfl
  | t :: ts, st => by
      simp [commRun, commRun_total_reads ts, commTick_total_reads,
        Nat.add_assoc, Nat.add_comm 1 ts.length]

/-- One processed tick whose exchange fails emits exactly one
transport-failure log line. -/
theorem commTick_transport_count (st : ReporterState) (r : SensorData)
    (ch : ChannelOutcome) (hv : r.is_valid = true)
    (hch : ch ≠ ChannelOutcome.ok) :
    ((commTick st r ch).logs.filter isTransportFailureLog).length = 1 := by
  cases ch with
  | ok => exact absurd rfl hch
  | noReply =>
      by_cases hc : isCorrupt r <;>
        by_cases h50 : (st.total_reads + 1) % 50 = 0 <;>
          simp [commTick, hv, hc, h50, isTransportFailureLog]
  | exc =>
      by_cases hc : isCorrupt r <;>
        by_cases h50 : (st.total_reads + 1) % 50 = 0 <;>
          simp [commTick, hv, hc, h50, isTransportFailureLog]

/-- Over a run of processed ticks whose exchanges all fail, the number of
transport-failure log lines equals the number of ticks. -/
theorem commRun_transport_count :
    ∀ (ticks : List (SensorData × ChannelOutcome)) (st : ReporterState),
      (∀ t ∈ ticks, t.1.is_valid = true ∧ t.2 ≠ ChannelOutcome.ok) →
      ((commRun st ticks).2.filter isTransportFailureLog).length = ticks.length
  | [], _, _ => rfl
  | t :: ts, st, h => by
      have ht := h t (List.mem_cons_self t ts)
      have hts := commRun_transport_count ts (commTick st t.1 t.2).st
        (fun u hu => h u (List.mem_cons_of_mem t hu))
      simp [commRun, List.filter_append, hts,
        commTick_transport_count st t.1 t.2 ht.1 ht.2]
      omega

/-! ## Claims -/

/-- C1, counterexample. The claim says every snapshot the reporter can
obtain equals, in all four fields, the complete record written by one
single sampler publication. In the schedule `trC1` — the disk publication
runs to completion, then the CPU publication writes its first field — the
snapshot taken after five steps has `is_valid = true` yet equals neither
published record: its sensor_id comes from the CPU publication while its
value and timestamp come from the disk publication, a field-wise mix. -/
theorem c1_counterexample :
    IsInterleaving (publishSteps rDiskC1) (publishSteps rCpuC1) trC1 ∧
    (runSteps initSensorData (trC1.take 5)).is_valid = true ∧
    runSteps initSensorData (trC1.take 5) ≠ rDiskC1 ∧
    runSteps initSensorData (trC1.take 5) ≠ rCpuC1 ∧
    (runSteps initSensorData (trC1.take 5)).sensor_id = rCpuC1.sensor_id ∧
    (runSteps initSensorData (trC1.take 5)).value = rDiskC1.value ∧
    (runSteps initSensorData (trC1.take 5)).timestamp = rDiskC1.timestamp :=
  ⟨IsInterleaving.append _ _, by decide, by decide, by decide,
   by decide, by decide, by decide⟩

/-- C1, amended. Publication is four separate field writes with no
synchronization: a publication that runs uninterrupted leaves the slot
exactly equal to the published record (with `is_valid` forced to true),
but there is an interleaving of two publications under which a snapshot
with `is_valid = true` is a field-wise mixture of the two — it equals
neither publication, taking its sensor_id from one and its value from the
other. The claimed atomicity therefore does not hold. -/
theorem c1_amended :
    (∀ s r : SensorData,
        runSteps s (publishSteps r) = { r with is_valid := true }) ∧
    (∃ (r1 r2 : SensorData) (tr : List WriteStep) (n : ℕ),
        IsInterleaving (publishSteps r1) (publishSteps r2) tr ∧
        (runSteps initSensorData (tr.take n)).is_valid = true ∧
        runSteps initSensorData (tr.take n) ≠ r1 ∧
        runSteps initSensorData (tr.take n) ≠ r2 ∧
        (runSteps initSensorData (tr.take n)).sensor_id = r2.sensor_id ∧
        (runSteps initSensorData (tr.take n)).value = r1.value) :=
  ⟨fun _ _ => rfl,
   ⟨rDiskC1, rCpuC1, trC1, 5, IsInterleaving.append _ _,
    by decide, by decide, by decide, by decide, by decide⟩⟩

/-- C2. The validation of the reporter flags a copied reading as
inconsistent exactly when its sensor_id is "cpu_usage_01" and its value
is below 0 or above 100, or its sensor_id is "disk_usage_root" and its
value is above 100 (a negative disk value is not flagged), or its
sensor_id is empty, or its timestamp is empty; at runtime a processed
tick bumps corruption_count exactly when the flag fires. In particular a
CPU value of exactly 100 is consistent, 100.0001 and -0.0001 are
inconsistent, a negative disk value is consistent, and an empty
sensor_id is inconsistent regardless of value. -/
theorem c2_validation_iff :
    (∀ r : SensorData, isCorrupt r = true ↔
      ((r.sensor_id = "cpu_usage_01" ∧ (r.value < 0 ∨ r.value > 100)) ∨
       (r.sensor_id = "disk_usage_root" ∧ r.value > 100) ∨
       r.sensor_id = "" ∨ r.timestamp = "")) ∧
    (∀ (st : ReporterState) (r : SensorData) (ch : ChannelOutcome),
      r.is_valid = true →
        ((commTick st r ch).st.corruption_count = st.corruption_count + 1 ↔
          isCorrupt r = true)) ∧
    isCorrupt { exampleCpuReading with value := 100 } = false ∧
    isCorrupt { exampleCpuReading with value := 100.0001 } = true ∧
    isCorrupt { exampleCpuReading with value := -0.0001 } = true ∧
    isCorrupt { exampleDiskReading with value := -5 } = false ∧
    (∀ (v : ℚ) (ts : String) (b : Bool),
      isCorrupt { sensor_id := "", value := v, timestamp := ts,
                  is_valid := b } = true) := by
  refine ⟨?_, ?_, ?_, ?_, ?_, ?_, ?_⟩
  · intro r
    simp only [isCorrupt, decide_eq_true_eq]
    tauto
  · intro st r ch hv
    by_cases hc : isCorrupt r <;> simp [commTick, hv, hc]
  · simp [isCorrupt, exampleCpuReading]
  · simp [isCorrupt, exampleCpuReading]; norm_num
  · simp [isCorrupt, exampleCpuReading]; norm_num
  · simp [isCorrupt, exampleDiskReading]; norm_num
  · intro v ts b; simp [isCorrupt]

/-- C2, witness for the runtime conjunct: the corrupt disk reading of
value 142 bumps corruption_count from 0 to 1 on a processed tick. -/
theorem c2_witness :
    (commTick ⟨0, 0⟩ { exampleDiskReading with value := 142 }
      ChannelOutcome.ok).st.corruption_count = 0 + 1 :=
  ((c2_validation_iff.2.1 ⟨0, 0⟩ { exampleDiskReading with value := 142 }
    ChannelOutcome.ok rfl).2 (by decide))

/-- C3, counterexample. On a skipped tick (the never-published slot, so
`is_valid = false` and nothing is sent) the claim says total_reads
increases by 0 — but the code increments it before testing `is_valid`,
so it increases by 1. The same reading satisfies the failure conditions
(empty sensor_id and timestamp), yet corruption_count stays 0 because
validation never runs on a skipped tick. -/
theorem c3_counterexample :
    (commTick ⟨0, 0⟩ initSensorData ChannelOutcome.ok).sent = none ∧
    (commTick ⟨0, 0⟩ initSensorData ChannelOutcome.ok).st.total_reads = 1 ∧
    isCorrupt initSensorData = true ∧
    (commTick ⟨0, 0⟩ initSensorData ChannelOutcome.ok).st.corruption_count
      = 0 := by
  refine ⟨by decide, by decide, by decide, by decide⟩

/-- C3, amended. Per reporter tick, total_reads increases by exactly 1 on
every tick, skipped or processed; corruption_count increases by exactly 1
on a processed tick whose reading fails validation and by 0 otherwise (on
a skipped tick validation does not run, so it never increases there);
both counters are monotone over any run and are never reset. -/
theorem c3_amended :
    (∀ (st : ReporterState) (r : SensorData) (ch : ChannelOutcome),
      (commTick st r ch).st.total_reads = st.total_reads + 1 ∧
      (commTick st r ch).st.corruption_count =
        st.corruption_count + (if r.is_valid && isCorrupt r then 1 else 0) ∧
      st.total_reads ≤ (commTick st r ch).st.total_reads ∧
      st.corruption_count ≤ (commTick st r ch).st.corruption_count) ∧
    (∀ (st : ReporterState) (ticks : List (SensorData × ChannelOutcome)),
      st.total_reads ≤ (commRun st ticks).1.total_reads ∧
      st.corruption_count ≤ (commRun st ticks).1.corruption_count) := by
  have htick : ∀ (st : ReporterState) (r : SensorData) (ch : ChannelOutcome),
      (commTick st r ch).st.total_reads = st.total_reads + 1 ∧
      (commTick st r ch).st.corruption_count =
        st.corruption_count + (if r.is_valid && isCorrupt r then 1 else 0) := by
    intro st r ch
    by_cases hv : r.is_valid <;> by_cases hc : isCorrupt r <;>
      simp [commTick, hv, hc]
  refine ⟨fun st r ch => ⟨(htick st r ch).1, (htick st r ch).2, ?_, ?_⟩, ?_⟩
  · exact (htick st r ch).1 ▸ Nat.le_succ _
  · rw [(htick st r ch).2]; exact Nat.le_add_right _ _
  · intro st ticks
    induction ticks generalizing st with
    | nil => exact ⟨Nat.le_refl _, Nat.le_refl _⟩
    | cons t ts ih =>
        have h1 := (htick st t.1 t.2).1
        have h2 := (htick st t.1 t.2).2
        have hrest := ih (commTick st t.1 t.2).st
        refine ⟨Nat.le_trans ?_ hrest.1, Nat.le_trans ?_ hrest.2⟩
        · rw [h1]; exact Nat.le_succ _
        · rw [h2]; exact Nat.le_add_right _ _

/-- C4, counterexample. The claim says the never-published state of the
slot is a distinct, observable state rather than merely a record whose
`is_valid` is false. In the code the slot is always a plain SensorData
record: never-published is exactly the default-constructed record with
`is_valid = false`, and the reporter treats it identically (same skip,
same counters, same logs, no send) to a fully populated stale record
whose `is_valid` is false — nothing distinguishes the two. -/
theorem c4_counterexample :
    initSensorData =
      { sensor_id := "", value := -1, timestamp := "", is_valid := false } ∧
    staleInvalidReading.is_valid = false ∧
    staleInvalidReading.sensor_id ≠ initSensorData.sensor_id ∧
    commTick ⟨0, 0⟩ initSensorData ChannelOutcome.ok =
      commTick ⟨0, 0⟩ staleInvalidReading ChannelOutcome.ok := by
  refine ⟨rfl, rfl, by decide, by decide⟩

/-- C4, amended. If the slot has never been published to, its content is
still the default-constructed record, whose `is_valid` is false, and the
reporter skips the tick entirely: it sends no message and logs nothing.
The never-published state is not a distinct state of the slot — the skip
is decided solely by the `is_valid` field, every processed tick sends a
message, and every completed publication sets `is_valid` to true. -/
theorem c4_amended :
    initSensorData.is_valid = false ∧
    (∀ (st : ReporterState) (r : SensorData) (ch : ChannelOutcome),
      r.is_valid = false →
        (commTick st r ch).sent = none ∧ (commTick st r ch).logs = []) ∧
    (∀ (st : ReporterState) (r : SensorData) (ch : ChannelOutcome),
      r.is_valid = true → (commTick st r ch).sent ≠ none) ∧
    (∀ r : SensorData,
      (runSteps initSensorData (publishSteps r)).is_valid = true) := by
  refine ⟨rfl, ?_, ?_, fun r => rfl⟩
  · intro st r ch hv
    simp [commTick, hv]
  · intro st r ch hv
    simp [commTick, hv]

/-- C4, witness: the reporter run on the never-published slot sends
nothing and logs nothing, and on the example CPU reading it sends a
message. -/
theorem c4_witness :
    ((commTick ⟨0, 0⟩ initSensorData ChannelOutcome.ok).sent = none ∧
     (commTick ⟨0, 0⟩ initSensorData ChannelOutcome.ok).logs = []) ∧
    (commTick ⟨0, 0⟩ exampleCpuReading ChannelOutcome.ok).sent ≠ none :=
  ⟨c4_amended.2.1 ⟨0, 0⟩ initSensorData ChannelOutcome.ok rfl,
   c4_amended.2.2.1 ⟨0, 0⟩ exampleCpuReading ChannelOutcome.ok rfl⟩

/-- C5. On every processed tick the reporter sends exactly the message
built from the validated snapshot: its sensor_id, timestamp and value
equal those of the snapshot, its data_consistent field is the negation
of the corruption flag, and its metric key is "cpu_usage_percent" when
the sensor_id is "cpu_usage_01" and "disk_usage_percent" otherwise; for
the snapshot (cpu_usage_01, 42.5, 2024-01-01T00:00:00Z, valid) the sent
message is exactly the object with sensor_id "cpu_usage_01", timestamp
"2024-01-01T00:00:00Z", cpu_usage_percent 42.5 and data_consistent
true. -/
theorem c5_message_shape :
    (∀ (st : ReporterState) (r : SensorData) (ch : ChannelOutcome),
      r.is_valid = true →
        (commTick st r ch).sent = some (buildMessage r (!isCorrupt r)) ∧
        (buildMessage r (!isCorrupt r)).sensor_id = r.sensor_id ∧
        (buildMessage r (!isCorrupt r)).timestamp = r.timestamp ∧
        (buildMessage r (!isCorrupt r)).value = r.value ∧
        (buildMessage r (!isCorrupt r)).data_consistent = !isCorrupt r ∧
        (buildMessage r (!isCorrupt r)).value_key =
          (if r.sensor_id = "cpu_usage_01" then "cpu_usage_percent"
           else "disk_usage_percent")) ∧
    (commTick ⟨0, 0⟩ exampleCpuReading ChannelOutcome.ok).sent = some
      { sensor_id := "cpu_usage_01", timestamp := "2024-01-01T00:00:00Z",
        value_key := "cpu_usage_percent", value := 42.5,
        data_consistent := true } := by
  constructor
  · intro st r ch hv
    refine ⟨by simp [commTick, hv], ?_, ?_, ?_, ?_, ?_⟩ <;>
      by_cases hid : r.sensor_id = "cpu_usage_01" <;>
        simp [buildMessage, hid]
  · have hc : isCorrupt { sensor_id := "cpu_usage_01", value := 42.5,
                          timestamp := "2024-01-01T00:00:00Z",
                          is_valid := true } = false := by
      simp [isCorrupt]
      norm_num
    simp [commTick, exampleCpuReading, buildMessage, hc]

/-- C5, witness: the general conjunct applied to the example CPU
reading. -/
theorem c5_witness :
    (commTick ⟨0, 0⟩ exampleCpuReading ChannelOutcome.ok).sent =
      some (buildMessage exampleCpuReading (!isCorrupt exampleCpuReading)) :=
  (c5_message_shape.1 ⟨0, 0⟩ exampleCpuReading ChannelOutcome.ok rfl).1

/-- C6. A per-call transport failure — an exchange that throws, or a
recv that returns no reply — is never fatal: the exception is caught,
the failure is logged, and the loop proceeds. Over any run whose ticks
all carry a valid snapshot and a failing channel outcome, the reporter
completes every tick (total_reads equals the number of ticks) and logs
exactly one transport failure per tick. -/
theorem c6_transport_failures :
    ∀ ticks : List (SensorData × ChannelOutcome),
      (∀ t ∈ ticks, t.1.is_valid = true ∧ t.2 ≠ ChannelOutcome.ok) →
      (commRun ⟨0, 0⟩ ticks).1.total_reads = ticks.length ∧
      ((commRun ⟨0, 0⟩ ticks).2.filter isTransportFailureLog).length =
        ticks.length := by
  intro ticks h
  refine ⟨?_, commRun_transport_count ticks ⟨0, 0⟩ h⟩
  simpa using commRun_total_reads ticks ⟨0, 0⟩

/-- C6, witness: on two ticks whose exchanges fail (one throws, one gets
no reply), the reporter completes both ticks and logs two transport
failures. -/
theorem c6_witness :
    (commRun ⟨0, 0⟩ ticksC6).1.total_reads = ticksC6.length ∧
    ((commRun ⟨0, 0⟩ ticksC6).2.filter isTransportFailureLog).length =
      ticksC6.length :=
  c6_transport_failures ticksC6 (by decide)

/-- C7. The CPU sampler reads a baseline sample before its loop and
publishes nothing for it: the first sample alone yields no published
usage (it is suppressed), every run publishes exactly one usage per
subsequent sample, each computed from the immediately preceding sample
of this same sampler, and `calculate_cpu_usage` returns exactly 0
whenever the total tick delta relative to the stored previous sample is
not positive — in particular on a degenerate first computation whose
current sample equals the stored baseline. -/
theorem c7_first_tick :
    (∀ s0 : CpuTimes, sensorThreadUsages [s0] = []) ∧
    (∀ samples : List CpuTimes,
      (sensorThreadUsages samples).length = samples.length - 1) ∧
    (∀ (s0 : CpuTimes) (rest : List CpuTimes),
      sensorThreadUsages (s0 :: rest) = cpuUsagesFrom s0 rest) ∧
    (∀ prev current : CpuTimes,
      total_diff prev current ≤ 0 → calculate_cpu_usage prev current = 0) ∧
    (∀ s0 : CpuTimes, calculate_cpu_usage s0 s0 = 0) := by
  have hzero : ∀ prev current : CpuTimes,
      total_diff prev current ≤ 0 → calculate_cpu_usage prev current = 0 := by
    intro prev current h
    simp only [calculate_cpu_usage, if_neg (not_lt.mpr h)]
  refine ⟨fun _ => rfl, ?_, fun _ _ => rfl, hzero, ?_⟩
  · intro samples
    cases samples with
    | nil => rfl
    | cons s0 rest => simp [sensorThreadUsages, cpuUsagesFrom_length]
  · intro s0
    exact hzero s0 s0 (by simp [total_diff])

/-- C7, witness: with all counters zero, the lone baseline sample yields
no publication and the degenerate computation returns 0. -/
theorem c7_witness :
    sensorThreadUsages [cpuZero] = [] ∧
    total_diff cpuZero cpuZero ≤ 0 ∧
    calculate_cpu_usage cpuZero cpuZero = 0 :=
  ⟨c7_first_tick.1 cpuZero, by decide,
   c7_first_tick.2.2.2.1 cpuZero cpuZero (by decide)⟩

/-- C8, counterexample. The claim says the rolling summary is logged
whenever total_reads is a multiple of 50. On a skipped tick (is_valid
false) total_reads still advances — here to exactly 50 — yet the tick
emits no log at all, because the statistics check sits inside the
is_valid branch. -/
theorem c8_counterexample :
    (commTick ⟨49, 0⟩ initSensorData ChannelOutcome.ok).st.total_reads
      = 50 ∧
    50 % 50 = 0 ∧
    (commTick ⟨49, 0⟩ initSensorData ChannelOutcome.ok).logs = [] := by
  refine ⟨by decide, by decide, by decide⟩

/-- C8, amended. The reporter logs the rolling corruption-rate summary,
with rate corruption_count / total_reads * 100, exactly on processed
(is_valid) ticks whose incremented total_reads is a multiple of 50; a
skipped tick logs no summary even when total_reads is a multiple of 50;
and on shutdown the final summary is always the last log line of the
run. -/
theorem c8_amended :
    (∀ (st : ReporterState) (r : SensorData) (ch : ChannelOutcome),
      r.is_valid = true → (st.total_reads + 1) % 50 = 0 →
        LogEvent.stats (st.total_reads + 1)
          (st.corruption_count + (if isCorrupt r then 1 else 0))
          (((st.corruption_count + (if isCorrupt r then 1 else 0) : ℕ) : ℚ) /
            ((st.total_reads + 1 : ℕ) : ℚ) * 100) ∈
          (commTick st r ch).logs) ∧
    (∀ (st : ReporterState) (r : SensorData) (ch : ChannelOutcome),
      r.is_valid = false ∨ (st.total_reads + 1) % 50 ≠ 0 →
        ∀ (t c : ℕ) (rate : ℚ),
          LogEvent.stats t c rate ∉ (commTick st r ch).logs) ∧
    (∀ ticks : List (SensorData × ChannelOutcome),
      (comm_thread_run ticks).2.getLast? =
        some (finalStatsLog (comm_thread_run ticks).1)) := by
  refine ⟨?_, ?_, ?_⟩
  · intro st r ch hv h50
    by_cases hc : isCorrupt r <;> cases ch <;>
      simp [commTick, hv, hc, h50]
  · intro st r ch h t c rate
    rcases h with hv | h50
    · simp [commTick, hv]
    · by_cases hv : r.is_valid <;> by_cases hc : isCorrupt r <;>
        cases ch <;> simp [commTick, hv, hc, h50]
  · intro ticks
    simp [comm_thread_run, List.getLast?_concat]

/-- C8, witness: a processed corrupt-free disk tick that brings
total_reads to 50 logs the rolling summary, and a processed tick at
total_reads 1 logs no summary. -/
theorem c8_witness :
    (LogEvent.stats (49 + 1) (0 + (if isCorrupt exampleDiskReading then 1 else 0))
      (((0 + (if isCorrupt exampleDiskReading then 1 else 0) : ℕ) : ℚ) /
        ((49 + 1 : ℕ) : ℚ) * 100) ∈
      (commTick ⟨49, 0⟩ exampleDiskReading ChannelOutcome.ok).logs) ∧
    LogEvent.stats 1 0 0 ∉
      (commTick ⟨0, 0⟩ exampleDiskReading ChannelOutcome.ok).logs :=
  ⟨c8_amended.1 ⟨49, 0⟩ exampleDiskReading ChannelOutcome.ok rfl (by decide),
   c8_amended.2.1 ⟨0, 0⟩ exampleDiskReading ChannelOutcome.ok
     (Or.inr (by decide)) 1 0 0⟩

/-- C9. The percentage division of `calculate_cpu_usage` is performed
only under the guard `total_diff > 0`, where its denominator is provably
nonzero, and in every other case — a zero or negative tick delta — the
function returns exactly 0. -/
theorem c9_no_div_by_zero :
    ∀ prev current : CpuTimes,
      (total_diff prev current ≤ 0 → calculate_cpu_usage prev current = 0) ∧
      (0 < total_diff prev current →
        ((total_diff prev current : ℚ) ≠ 0 ∧
         calculate_cpu_usage prev current =
           ((total_diff prev current - idle_diff prev current : ℤ) /
             (total_diff prev current : ℚ)) * 100)) := by
  intro prev current
  constructor
  · intro h
    simp only [calculate_cpu_usage, if_neg (not_lt.mpr h)]
  · intro h
    refine ⟨Int.cast_ne_zero.mpr (ne_of_gt h), ?_⟩
    simp only [calculate_cpu_usage, if_pos h]

/-- C9, witness: a zero delta returns 0, and a positive delta of 20 with
10 idle ticks takes the division branch with a nonzero denominator. -/
theorem c9_witness :
    (total_diff cpuZero cpuZero ≤ 0 ∧
      calculate_cpu_usage cpuZero cpuZero = 0) ∧
    (0 < total_diff cpuZero cpuSample1 ∧
      (total_diff cpuZero cpuSample1 : ℚ) ≠ 0 ∧
      calculate_cpu_usage cpuZero cpuSample1 =
        ((total_diff cpuZero cpuSample1 - idle_diff cpuZero cpuSample1 : ℤ) /
          (total_diff cpuZero cpuSample1 : ℚ)) * 100) :=
  ⟨⟨by decide, (c9_no_div_by_zero cpuZero cpuZero).1 (by decide)⟩,
   ⟨by decide, (c9_no_div_by_zero cpuZero cpuSample1).2 (by decide)⟩⟩

/-- C10. Every reading whose sensor_id is not exactly "cpu_usage_01" —
including an empty or otherwise unrecognized id — takes the else branch
of the message construction: its value is carried under the
"disk_usage_percent" key and there is no separate message shape. -/
theorem c10_disk_key_default :
    ∀ (r : SensorData) (dc : Bool),
      r.sensor_id ≠ "cpu_usage_01" →
        buildMessage r dc =
          { sensor_id := r.sensor_id, timestamp := r.timestamp,
            value_key := "disk_usage_percent", value := r.value,
            data_consistent := dc } := by
  intro r dc h
  simp [buildMessage, h]

/-- C10, witness: the empty (corrupted) sensor_id is carried under the
"disk_usage_percent" key. -/
theorem c10_witness :
    buildMessage initSensorData true =
      { sensor_id := "", timestamp := "",
        value_key := "disk_usage_percent", value := -1,
        data_consistent := true } :=
  c10_disk_key_default initSensorData true (by decide)
